import Mathlib

/-!
Verification development for the pdf-filler form-field layer
(native/src/pdf-filler.cpp, native/include/pdf-filler.h).

The C++ core is shallowly embedded as follows.

* Poppler (the external PDF parser/object model) is represented by an
  arena of field nodes: a `PdfDoc` holds a list of `PdfNode`s and each
  node lists its children as indices into that arena.  Indices allow
  cyclic child references, which real malformed documents can contain.
* A Poppler `::FormField*` pointer held by the session's name index is
  represented as a pair `(generation, node index)`.  Each successful
  load of a new document bumps the session's generation counter, so a
  pointer stamped with an older generation models a dangling pointer
  into a destroyed `PDFDoc` (dereferencing it in the C++ is undefined
  behavior; the model's `derefField` returns `none` there).
* `GooString*` values that may be null are `Option String`; the
  UTF-16BE/UTF-8 text-string codec (`gooToStd` / `utf8ToUtf16WithBom`)
  is external and round-trips, so the model stores decoded strings.
* C++ `double` geometry values are modeled as `Int` (no claim reasons
  about real-valued geometry arithmetic).
* The unbounded C++ recursion of `collectFieldsRecursive` is modeled
  with explicit fuel: a `none` result means the recursion has not
  returned within that bound.
* Mutation results are `Option Bool`: `some b` is the C++ return value
  of a defined execution, `none` marks an execution that dereferences a
  dangling field pointer (undefined behavior in the C++).
* Purely external operations (the Splash rasterizer, libpng, the
  `saveAs` writer) are passed in as oracle functions.
-/

namespace PdfFiller

/-- `enum class FieldType` from pdf-filler.h. -/
inductive FieldType where
  | Unknown
  | Text
  | Button
  | Checkbox
  | Radio
  | Choice
  | Signature
deriving DecidableEq, Repr

/-- Poppler's `FormFieldType` as used by the code
(`formText`, `formButton`, `formChoice`, `formSignature`, other). -/
inductive FormFieldType where
  | formText
  | formButton
  | formChoice
  | formSignature
  | formUndef
deriving DecidableEq, Repr

/-- Poppler's `FormButtonType`: check box, radio button, push button. -/
inductive FormButtonType where
  | check
  | radio
  | push
deriving DecidableEq, Repr

/-- A widget annotation of a field: rectangle, 1-based page number, and
the widget's on-state label (`FormWidgetButton::getOnStr`, possibly
null or empty). -/
structure Widget where
  x1 : Int
  y1 : Int
  x2 : Int
  y2 : Int
  pageNum : Nat
  onStr : Option String
deriving DecidableEq, Repr

/-- A Poppler field-tree node.  `children` are indices into the owning
document's node arena, which permits the cyclic child references a
malformed document can contain.  `partialName` / `fullyQualifiedName`
model the possibly-null `GooString*` results of `getPartialName` /
`getFullyQualifiedName` (already codec-decoded).  `state` is the
button appearance state (`"Off"` or an on-state label). -/
structure PdfNode where
  kind : FormFieldType := FormFieldType.formUndef
  btnType : FormButtonType := FormButtonType.push
  partialName : Option String := none
  fullyQualifiedName : Option String := none
  readOnlyFlag : Bool := false
  widgets : List Widget := []
  children : List Nat := []
  textContent : Option String := none
  choices : List String := []
  selected : List Nat := []
  state : String := "Off"
deriving DecidableEq, Repr

/-- The result of Poppler parsing a byte stream: node arena, the root
form fields (indices), whether the catalog has a form, and the page
count. -/
structure PdfDoc where
  nodes : List PdfNode
  rootFields : List Nat
  hasForm : Bool
  numPages : Nat
deriving DecidableEq, Repr

/-- `struct PdfFormField` from pdf-filler.h, with its C++ member
defaults. -/
structure PdfFormField where
  name : String := ""
  fullName : String := ""
  value : String := ""
  defaultValue : String := ""
  type : FieldType := FieldType.Unknown
  readOnly : Bool := false
  required : Bool := false
  pageIndex : Int := 0
  x : Int := 0
  y : Int := 0
  width : Int := 0
  height : Int := 0
  options : List String := []
  exportValue : String := ""
  isChecked : Bool := false
deriving DecidableEq, Repr

/-- A `::FormField*` as stored in `fieldMap_`: the generation of the
document it points into, and the node's arena index. -/
abbrev FieldPtr := Nat × Nat

/-- The `std::unordered_map<std::string, ::FormField*> fieldMap_`,
as an association list with overwrite-on-insert semantics. -/
abbrev FieldMap := List (String × FieldPtr)

/-- `fieldMap[key] = value`: overwrite an existing entry or add one. -/
def mapInsert (m : FieldMap) (k : String) (v : FieldPtr) : FieldMap :=
  match m with
  | [] => [(k, v)]
  | (k', v') :: rest =>
      if k' = k then (k, v) :: rest else (k', v') :: mapInsert rest k v

/-- `fieldMap_.find(key)`. -/
def mapLookup (m : FieldMap) (k : String) : Option FieldPtr :=
  match m with
  | [] => none
  | (k', v') :: rest => if k' = k then some v' else mapLookup rest k

/-- `convertFieldType` (pdf-filler.cpp): Poppler kind to exposed type. -/
def convertFieldType (t : FormFieldType) : FieldType :=
  match t with
  | FormFieldType.formText => FieldType.Text
  | FormFieldType.formButton => FieldType.Button
  | FormFieldType.formChoice => FieldType.Choice
  | FormFieldType.formSignature => FieldType.Signature
  | FormFieldType.formUndef => FieldType.Unknown

/-- Modelled from the spec: Poppler's `FormFieldButton::getState(0)`
("First widget state") is not code of this repository.  Per the spec,
`isChecked` reflects only the first widget's on/off state: the widget
is on iff the field's current appearance state equals that widget's
on-state label. -/
def getState0 (n : PdfNode) : Bool :=
  match n.widgets.head? with
  | none => false
  | some w =>
      match w.onStr with
      | none => false
      | some s => n.state = s

/-- Modelled from the spec: Poppler's
`FormFieldChoice::getSelectedChoice` (external) returns the label of
the first selected choice, or null when the selection index is out of
range. -/
def getSelectedChoice (n : PdfNode) : Option String :=
  match n.selected.head? with
  | none => none
  | some i => n.choices.get? i

/-- The `PdfFormField` record built for one terminal node inside
`collectFieldsRecursive` (pdf-filler.cpp lines 172-254): names, type
with button refinement, per-kind value extraction, and geometry from
widget 0. -/
def mkFieldRecord (n : PdfNode) : PdfFormField :=
  let fullName : String :=
    match n.fullyQualifiedName with
    | some f => f
    | none => ""
  let name : String :=
    match n.partialName with
    | some p => p
    | none => fullName
  let base : PdfFormField :=
    { name := name
      fullName := fullName
      type := convertFieldType n.kind
      readOnly := n.readOnlyFlag }
  let withValue : PdfFormField :=
    match n.kind with
    | FormFieldType.formText =>
        { base with
            value :=
              match n.textContent with
              | some c => c
              | none => "" }
    | FormFieldType.formChoice =>
        { base with
            value :=
              if n.selected.length > 0 then
                match getSelectedChoice n with
                | some s => s
                | none => ""
              else base.value
            options := n.choices }
    | FormFieldType.formButton =>
        match n.btnType with
        | FormButtonType.check =>
            { base with type := FieldType.Checkbox, isChecked := getState0 n }
        | FormButtonType.radio =>
            { base with type := FieldType.Radio, isChecked := getState0 n }
        | FormButtonType.push =>
            { base with type := FieldType.Button }
    | FormFieldType.formSignature =>
        { base with type := FieldType.Signature }
    | FormFieldType.formUndef => base
  match n.widgets.head? with
  | some w =>
      { withValue with
          x := w.x1
          y := w.y1
          width := w.x2 - w.x1
          height := w.y2 - w.y1
          pageIndex := (w.pageNum : Int) - 1 }
  | none => withValue

/-- The map insertions performed for an emitted record
(pdf-filler.cpp lines 180-186): an entry for a non-empty `fullName`,
and a second entry for `name` when non-empty and distinct. -/
def insertRecord (m : FieldMap) (ff : PdfFormField) (p : FieldPtr) : FieldMap :=
  let m1 := if ff.fullName ≠ "" then mapInsert m ff.fullName p else m
  if ff.name ≠ "" ∧ ff.name ≠ ff.fullName then mapInsert m1 ff.name p else m1

/-- `collectFieldsRecursive` (pdf-filler.cpp lines 163-264), as a
depth-first pre-order worklist walk over the node arena.  The C++
recursion is unbounded; `fuel` bounds the number of worklist steps and
a `none` result means the recursion has not returned within that
bound.  An index outside the arena models the `if (!field) return;`
null check.  A node is emitted iff it has at least one widget, before
its children are pushed; map entries carry the document generation
`gen`. -/
def collectFieldsRecursive (arena : List PdfNode) (gen : Nat) :
    Nat → List Nat → List PdfFormField × FieldMap →
    Option (List PdfFormField × FieldMap)
  | 0, _, _ => none
  | _ + 1, [], acc => some acc
  | fuel + 1, idx :: rest, acc =>
      match arena.get? idx with
      | none => collectFieldsRecursive arena gen fuel rest acc
      | some n =>
          let acc' :=
            if n.widgets.length > 0 then
              let ff := mkFieldRecord n
              (acc.1 ++ [ff], insertRecord acc.2 ff (gen, idx))
            else acc
          collectFieldsRecursive arena gen fuel (n.children ++ rest) acc'

/-- `PdfDocument::Impl` (pdf-filler.cpp lines 57-66): the loaded
document, last-error slot, flatten cache, name index, validity flag
and dirty flag.  `docGen` counts successful loads so that stale
`FieldPtr`s stamped with an older generation are distinguishable from
pointers into the live document. -/
structure SessionState where
  doc : Option PdfDoc
  docGen : Nat
  lastError : String
  cachedFields : List PdfFormField
  fieldMap : FieldMap
  fieldsCached : Bool
  modified : Bool
deriving DecidableEq, Repr

/-- A freshly constructed `PdfDocument::Impl` (member initializers). -/
def initState : SessionState :=
  { doc := none
    docGen := 0
    lastError := ""
    cachedFields := []
    fieldMap := []
    fieldsCached := false
    modified := false }

/-- Dereference a stored `::FormField*`.  `none` models a pointer that
does not address a node of the live document — in particular a dangling
pointer into a destroyed `PDFDoc` from an earlier load, which the C++
would dereference (undefined behavior). -/
def derefField (st : SessionState) (p : FieldPtr) : Option PdfNode :=
  if p.1 = st.docGen then
    match st.doc with
    | some d => d.nodes.get? p.2
    | none => none
  else none

/-- Replace node `idx` of the loaded document (a mutation performed
through a live `::FormField*`). -/
def updateNode (st : SessionState) (idx : Nat) (f : PdfNode → PdfNode) :
    SessionState :=
  match st.doc with
  | none => st
  | some d =>
      match d.nodes.get? idx with
      | none => st
      | some n => { st with doc := some { d with nodes := d.nodes.set idx (f n) } }

/-- Fuel used by the session when running the (unbounded) C++ field
traversal; sufficient for the acyclic documents the session theorems
and examples use.  On a cyclic document no fuel suffices (see the
cyclic-traversal theorem) and `cacheFormFields` below leaves the
session unchanged, mirroring the fact that the C++ call never
returns. -/
def cacheFuel (d : PdfDoc) : Nat :=
  (d.nodes.length + 1) * (d.nodes.length + 1) + d.rootFields.length + 1

/-- `Impl::cacheFormFields` (pdf-filler.cpp lines 142-161): a no-op
when already cached or no document is loaded; otherwise clears
`cachedFields_` (but never `fieldMap_`), walks every root field, and
sets the validity flag. -/
def cacheFormFields (st : SessionState) : SessionState :=
  if st.fieldsCached then st
  else
    match st.doc with
    | none => st
    | some d =>
        if d.hasForm then
          match collectFieldsRecursive d.nodes st.docGen (cacheFuel d)
              d.rootFields ([], st.fieldMap) with
          | some (flds, fmap) =>
              { st with
                  cachedFields := flds
                  fieldMap := fmap
                  fieldsCached := true }
          | none => st
        else { st with cachedFields := [], fieldsCached := true }

/-- `Impl::findFormField`: cache (rebuilding if invalid), then look the
identifier up in `fieldMap_`. -/
def findFormField (st : SessionState) (name : String) :
    SessionState × Option FieldPtr :=
  let st1 := cacheFormFields st
  (st1, mapLookup st1.fieldMap name)

/-- `Impl::loadFromMemory` (pdf-filler.cpp lines 73-102).  `parsed` is
the external parser's result on the input bytes (`none` when
`PDFDoc::isOk()` is false).  On success the generation advances (a new
`PDFDoc` with fresh field objects), the validity flag and dirty flag
are cleared — but `fieldMap_` and `cachedFields_` are not touched.  On
failure `doc_` is reset and an error recorded. -/
def loadFromMemory (st : SessionState) (parsed : Option PdfDoc) :
    SessionState × Bool :=
  match parsed with
  | none =>
      ({ st with doc := none, lastError := "Failed to load PDF" }, false)
  | some d =>
      ({ st with
          doc := some d
          docGen := st.docGen + 1
          fieldsCached := false
          modified := false }, true)

/-- `PdfDocument::getPageCount`. -/
def getPageCount (st : SessionState) : Nat :=
  match st.doc with
  | some d => d.numPages
  | none => 0

/-- `PdfDocument::hasAcroForm` via `Impl::getForm`. -/
def hasAcroForm (st : SessionState) : Bool :=
  match st.doc with
  | some d => d.hasForm
  | none => false

/-- `PdfDocument::getFormFields`: cache, then return a copy of the
cached records. -/
def getFormFields (st : SessionState) : SessionState × List PdfFormField :=
  let st1 := cacheFormFields st
  (st1, st1.cachedFields)

/-- `PdfDocument::getFieldByName` (pdf-filler.cpp lines 594-603):
cache, then return the first cached record whose `name` or `fullName`
matches. -/
def getFieldByName (st : SessionState) (name : String) :
    SessionState × Option PdfFormField :=
  let st1 := cacheFormFields st
  (st1, st1.cachedFields.find? (fun f => f.name = name || f.fullName = name))

/-- `Impl::setTextFieldValue` (pdf-filler.cpp lines 276-302).  The
UTF-8 → UTF-16BE-with-BOM re-encoding and its decoding on read-back
are the external codec and round-trip, so the model stores the value
directly.  Result `none` marks dereference of a dangling pointer
(undefined behavior in the C++). -/
def setTextFieldValue (st : SessionState) (name value : String) :
    SessionState × Option Bool :=
  let (st1, found) := findFormField st name
  match found with
  | none => ({ st1 with lastError := "Field not found: " ++ name }, some false)
  | some p =>
      match derefField st1 p with
      | none => (st1, none)
      | some n =>
          if n.kind ≠ FormFieldType.formText then
            ({ st1 with lastError := "Field is not a text field: " ++ name },
              some false)
          else
            let st2 := updateNode st1 p.2
              (fun m => { m with textContent := some value })
            ({ st2 with modified := true, fieldsCached := false }, some true)

/-- The linear scan of `setChoiceFieldValue` (pdf-filler.cpp lines
319-327): index of the first choice label equal to the value. -/
def findChoiceIdx (choices : List String) (value : String) : Option Nat :=
  match choices with
  | [] => none
  | c :: rest =>
      if c = value then some 0
      else
        match findChoiceIdx rest value with
        | some i => some (i + 1)
        | none => none

/-- `Impl::setChoiceFieldValue` (pdf-filler.cpp lines 304-341): resolve
the field, require a choice field, scan the option list for an exact
match, fail with an error when absent, otherwise select that index
(`FormFieldChoice::select`), mark dirty and invalidate. -/
def setChoiceFieldValue (st : SessionState) (name value : String) :
    SessionState × Option Bool :=
  let (st1, found) := findFormField st name
  match found with
  | none => ({ st1 with lastError := "Field not found: " ++ name }, some false)
  | some p =>
      match derefField st1 p with
      | none => (st1, none)
      | some n =>
          if n.kind ≠ FormFieldType.formChoice then
            ({ st1 with lastError := "Field is not a choice field: " ++ name },
              some false)
          else
            match findChoiceIdx n.choices value with
            | none =>
                ({ st1 with
                    lastError := "Value not in choice options: " ++ value },
                  some false)
            | some i =>
                let st2 := updateNode st1 p.2 (fun m => { m with selected := [i] })
                ({ st2 with modified := true, fieldsCached := false }, some true)

/-- `Impl::setButtonFieldValue` (pdf-filler.cpp lines 343-388): resolve
the field, require a button field; a push button is a silent no-op
success; otherwise read the on-state label from widget 0 (falling back
to `"Yes"` when null or empty), set the node's state to that label or
to `"Off"`, mark dirty and invalidate. -/
def setButtonFieldValue (st : SessionState) (name : String) (checked : Bool) :
    SessionState × Option Bool :=
  let (st1, found) := findFormField st name
  match found with
  | none => ({ st1 with lastError := "Field not found: " ++ name }, some false)
  | some p =>
      match derefField st1 p with
      | none => (st1, none)
      | some n =>
          if n.kind ≠ FormFieldType.formButton then
            ({ st1 with lastError := "Field is not a button field: " ++ name },
              some false)
          else
            if n.btnType ≠ FormButtonType.check ∧ n.btnType ≠ FormButtonType.radio
            then (st1, some true)
            else
              let checkedState : String :=
                match n.widgets.head? with
                | some w =>
                    match w.onStr with
                    | some s => if s = "" then "Yes" else s
                    | none => "Yes"
                | none => "Yes"
              let newState := if checked then checkedState else "Off"
              let st2 := updateNode st1 p.2 (fun m => { m with state := newState })
              ({ st2 with modified := true, fieldsCached := false }, some true)

/-- `PdfDocument::setFieldValue` (pdf-filler.cpp lines 605-625):
resolve the field, then dispatch on the underlying Poppler kind; for
buttons the string is read as a boolean
(`!value.empty() && value != "0" && value != "false"`). -/
def setFieldValue (st : SessionState) (name value : String) :
    SessionState × Option Bool :=
  let (st1, found) := findFormField st name
  match found with
  | none => ({ st1 with lastError := "Field not found: " ++ name }, some false)
  | some p =>
      match derefField st1 p with
      | none => (st1, none)
      | some n =>
          match n.kind with
          | FormFieldType.formText => setTextFieldValue st1 name value
          | FormFieldType.formChoice => setChoiceFieldValue st1 name value
          | FormFieldType.formButton =>
              setButtonFieldValue st1 name
                (value ≠ "" && value ≠ "0" && value ≠ "false")
          | _ =>
              ({ st1 with lastError := "Unsupported field type for setValue" },
                some false)

/-- `PdfDocument::setCheckboxValue`. -/
def setCheckboxValue (st : SessionState) (name : String) (checked : Bool) :
    SessionState × Option Bool :=
  setButtonFieldValue st name checked

/-- The loop body of `PdfDocument::setFieldValues` (pdf-filler.cpp
lines 631-640) with its `allSuccess` accumulator; a pair that fails
clears the flag but iteration continues.  A `none` step (undefined
behavior) aborts the run. -/
def setFieldValuesGo (st : SessionState) (allSuccess : Bool) :
    List (String × String) → SessionState × Option Bool
  | [] => (st, some allSuccess)
  | (name, value) :: rest =>
      match setFieldValue st name value with
      | (st', none) => (st', none)
      | (st', some ok) => setFieldValuesGo st' (allSuccess && ok) rest

/-- `PdfDocument::setFieldValues`. -/
def setFieldValues (st : SessionState) (pairs : List (String × String)) :
    SessionState × Option Bool :=
  setFieldValuesGo st true pairs

/-- Sequential application of `setFieldValue` to every pair in order,
recording each pair's individual result — the specification-shaped
restatement of the batch loop, compared with `setFieldValues` below. -/
def applyPairsSeq : SessionState → List (String × String) →
    SessionState × List (Option Bool)
  | st, [] => (st, [])
  | st, (name, value) :: rest =>
      let r := setFieldValue st name value
      let t := applyPairsSeq r.1 rest
      (t.1, r.2 :: t.2)

/-- `Impl::flattenForm` (pdf-filler.cpp lines 390-426): fails with
"No document loaded" / "Document has no form"; otherwise the page loop
changes nothing and the document is only marked dirty. -/
def flattenForm (st : SessionState) : SessionState × Bool :=
  match st.doc with
  | none => ({ st with lastError := "No document loaded" }, false)
  | some d =>
      if d.hasForm then ({ st with modified := true }, true)
      else ({ st with lastError := "Document has no form" }, false)

/-- `Impl::saveToMemory` (pdf-filler.cpp lines 428-468).  The
`saveAs`/read-back machinery is external: `writer d forceRewrite`
yields the written bytes or `none` on writer failure.  The write mode
is forced-rewrite exactly when the dirty flag is set. -/
def saveToMemory (writer : PdfDoc → Bool → Option (List Nat))
    (st : SessionState) : SessionState × List Nat :=
  match st.doc with
  | none => ({ st with lastError := "No document loaded" }, [])
  | some d =>
      match writer d st.modified with
      | none => ({ st with lastError := "Failed to save PDF" }, [])
      | some bytes => (st, bytes)

/-- `Impl::renderPageToPng` (pdf-filler.cpp lines 470-540): the guard
`!doc_ || pageIndex < 0 || pageIndex >= getNumPages()` returns the
empty result; past the guard, rasterization and PNG encoding are the
external `render` oracle. -/
def renderPageToPng (render : PdfDoc → Nat → Int → List Nat)
    (st : SessionState) (pageIndex : Int) (dpi : Int) : List Nat :=
  match st.doc with
  | none => []
  | some d =>
      if pageIndex < 0 ∨ (d.numPages : Int) ≤ pageIndex then []
      else render d pageIndex.toNat dpi

/-- `fieldTypeToString` (pdf-filler.cpp lines 673-683). -/
def fieldTypeToString (t : FieldType) : String :=
  match t with
  | FieldType.Text => "text"
  | FieldType.Button => "button"
  | FieldType.Checkbox => "checkbox"
  | FieldType.Radio => "radio"
  | FieldType.Choice => "choice"
  | FieldType.Signature => "signature"
  | FieldType.Unknown => "unknown"

/-- `stringToFieldType` (pdf-filler.cpp lines 685-693). -/
def stringToFieldType (s : String) : FieldType :=
  if s = "text" then FieldType.Text
  else if s = "button" then FieldType.Button
  else if s = "checkbox" then FieldType.Checkbox
  else if s = "radio" then FieldType.Radio
  else if s = "choice" then FieldType.Choice
  else if s = "signature" then FieldType.Signature
  else FieldType.Unknown

/-! ### Concrete documents and session runs used below -/

/-- A plain widget on page 1 with no on-state label. -/
def widget1 : Widget :=
  { x1 := 0, y1 := 0, x2 := 10, y2 := 10, pageNum := 1, onStr := none }

/-- A single-node arena whose node lists itself as its own child — a
document with a cyclic child reference. -/
def cyclicNode : PdfNode :=
  { kind := FormFieldType.formText
    partialName := some "loop"
    fullyQualifiedName := some "loop"
    children := [0] }

/-- Text field `a` with one widget. -/
def nodeA : PdfNode :=
  { kind := FormFieldType.formText
    partialName := some "a"
    fullyQualifiedName := some "a"
    widgets := [widget1]
    textContent := some "" }

/-- Document A: the single text field `a`. -/
def docA : PdfDoc :=
  { nodes := [nodeA], rootFields := [0], hasForm := true, numPages := 1 }

/-- Document B: no form at all. -/
def docB : PdfDoc :=
  { nodes := [], rootFields := [], hasForm := false, numPages := 1 }

/-- Session after successfully loading document A. -/
def stA : SessionState := (loadFromMemory initState (some docA)).1

/-- Session after loading document A and querying the fields (cache
and index populated from A). -/
def stA2 : SessionState := (getFormFields stA).1

/-- Session after then successfully loading document B. -/
def stB : SessionState := (loadFromMemory stA2 (some docB)).1

/-- Session after the first field query against document B. -/
def stB2 : SessionState := (getFormFields stB).1

/-- A checkbox widget whose on-state label is `On1`. -/
def checkWidget : Widget :=
  { x1 := 0, y1 := 0, x2 := 10, y2 := 10, pageNum := 1, onStr := some "On1" }

/-- Checkbox field `cb`, initially off. -/
def checkNode : PdfNode :=
  { kind := FormFieldType.formButton
    btnType := FormButtonType.check
    partialName := some "cb"
    fullyQualifiedName := some "cb"
    widgets := [checkWidget] }

/-- Document with the single checkbox `cb`. -/
def docCheck : PdfDoc :=
  { nodes := [checkNode], rootFields := [0], hasForm := true, numPages := 1 }

/-- Session with `docCheck` loaded and cached. -/
def stCheck : SessionState :=
  (getFormFields (loadFromMemory initState (some docCheck)).1).1

/-- Push-button field `pb` with one widget. -/
def pushNode : PdfNode :=
  { kind := FormFieldType.formButton
    btnType := FormButtonType.push
    partialName := some "pb"
    fullyQualifiedName := some "pb"
    widgets := [widget1] }

/-- Document with the single push button `pb`. -/
def docPush : PdfDoc :=
  { nodes := [pushNode], rootFields := [0], hasForm := true, numPages := 1 }

/-- Session with `docPush` loaded and cached. -/
def stPush : SessionState :=
  (getFormFields (loadFromMemory initState (some docPush)).1).1

/-- Choice field `ch` with options `Alpha`, `Beta`, option 0 selected. -/
def choiceNode : PdfNode :=
  { kind := FormFieldType.formChoice
    partialName := some "ch"
    fullyQualifiedName := some "ch"
    widgets := [widget1]
    choices := ["Alpha", "Beta"]
    selected := [0] }

/-- Document with the single choice field `ch`. -/
def docChoice : PdfDoc :=
  { nodes := [choiceNode], rootFields := [0], hasForm := true, numPages := 1 }

/-- Session with `docChoice` loaded and cached. -/
def stChoice : SessionState :=
  (getFormFields (loadFromMemory initState (some docChoice)).1).1

/-- Terminal node with a null partial name. -/
def noPartialNode : PdfNode :=
  { kind := FormFieldType.formText
    partialName := none
    fullyQualifiedName := some "root.kid"
    widgets := [widget1] }

/-- Terminal node whose partial name is present but empty, while its
fully qualified name is `a.b`. -/
def emptyNameNode : PdfNode :=
  { kind := FormFieldType.formText
    partialName := some ""
    fullyQualifiedName := some "a.b"
    widgets := [widget1] }

/-- A renderer oracle that always produces one byte. -/
def constRender : PdfDoc → Nat → Int → List Nat := fun _ _ _ => [7]

/-! ### Theorems -/

/-- C1: the field-tree flattening traversal does NOT terminate on a
document whose field nodes contain cyclic child references — the code
neither bounds recursion depth nor tracks visited nodes.  On the
one-node arena whose node is its own child, no recursion-depth budget
whatsoever lets `collectFieldsRecursive` return: the C++ recursion
runs forever. -/
theorem collectFieldsRecursive_cyclic_diverges :
    ∀ fuel : Nat,
      collectFieldsRecursive [cyclicNode] 1 fuel [0] ([], []) = none := by
  intro fuel
  induction fuel with
  | zero => rfl
  | succ n ih => exact ih

/-- C2: after a mutual-consistency-relevant reload, the cache and
index are marked valid yet inconsistent: having loaded document A,
queried fields, successfully loaded document B and queried again, the
session has `fieldsCached = true` with an empty flatten cache, while
the name index still maps `"a"` to a generation-1 pointer — an entry
for no cached field, dangling into destroyed document A
(`derefField` = none). -/
theorem cache_index_inconsistent_after_reload :
    stB2.fieldsCached = true ∧
    stB2.cachedFields = [] ∧
    mapLookup stB2.fieldMap "a" = some (1, 0) ∧
    stB2.docGen = 2 ∧
    derefField stB2 (1, 0) = none := by decide

/-- C3: a successful load of a new document does NOT fully reset the
derived state: after loading document A, querying fields, and then
successfully loading document B, the name-lookup index still contains
the entry for A's field `"a"`, stamped with the dead generation 1
(a dangling `::FormField*` into the destroyed document A). -/
theorem load_retains_stale_index_entry :
    (loadFromMemory stA2 (some docB)).2 = true ∧
    stB.modified = false ∧
    stB.docGen = 2 ∧
    mapLookup stB.fieldMap "a" = some (1, 0) ∧
    derefField stB (1, 0) = none := by decide

/-- C4 counterexample: in the Empty state, `setFieldValue` fails with
the error `"Field not found: f"` recorded — not `"no document loaded"`
as the claim states. -/
theorem empty_setFieldValue_error_not_noDocument :
    (setFieldValue initState "f" "v").2 = some false ∧
    (setFieldValue initState "f" "v").1.lastError = "Field not found: f" ∧
    ¬ (setFieldValue initState "f" "v").1.lastError = "no document loaded" := by
  decide

/-- C5 counterexample: `pb` is a button-family field (a push button).
`setFieldValue(pb, "x")` with the non-empty string `"x"` returns
success but is a silent no-op: the session is unchanged and the
field's record still reports `isChecked = false`, not `true` as the
claim requires. -/
theorem pushButton_success_without_check :
    (setFieldValue stPush "pb" "x").2 = some true ∧
    (setFieldValue stPush "pb" "x").1 = stPush ∧
    ((getFieldByName (setFieldValue stPush "pb" "x").1 "pb").2.map
        PdfFormField.isChecked) = some false := by decide

/-- C9 counterexample: a terminal node with a present-but-empty
partial name and fully qualified name `"a.b"` is emitted by the
flattener with `name = ""` distinct from `fullName = "a.b"` — the
aliasing only happens when the partial name is null, not when it is
empty. -/
theorem emitted_empty_partial_name_not_aliased :
    collectFieldsRecursive [emptyNameNode] 1 2 [0] ([], [])
      = some ([mkFieldRecord emptyNameNode], [("a.b", (1, 0))]) ∧
    (mkFieldRecord emptyNameNode).name = "" ∧
    (mkFieldRecord emptyNameNode).fullName = "a.b" := by decide

/-- C10: every one of the seven field-type tags round-trips through
the string form exchanged across the public boundary:
`stringToFieldType (fieldTypeToString t) = t`. -/
theorem fieldType_string_roundtrip (t : FieldType) :
    stringToFieldType (fieldTypeToString t) = t := by
  cases t <;> rfl

/-- Round-trip witnessed at a concrete tag. -/
theorem fieldType_string_roundtrip_witness :
    stringToFieldType (fieldTypeToString FieldType.Checkbox)
      = FieldType.Checkbox :=
  fieldType_string_roundtrip FieldType.Checkbox

/-- Claim C4 (amended): in a session whose Empty state is genuine (no
document and an empty name index), every operation is well defined:
`setFieldValue`/`setCheckboxValue` fail recording
`"Field not found: <id>"`, `flattenForm` and `saveToMemory` fail
recording `"No document loaded"`, and the queries return neutral
defaults (page count 0, no form, empty field list, absent field,
empty render result); no mutation succeeds. -/
theorem empty_session_well_defined (st : SessionState)
    (name value : String) (checked : Bool)
    (writer : PdfDoc → Bool → Option (List Nat))
    (render : PdfDoc → Nat → Int → List Nat) (pageIndex dpi : Int)
    (hdoc : st.doc = none) (hmap : st.fieldMap = [])
    (hcache : st.cachedFields = []) :
    setFieldValue st name value
        = ({ st with lastError := "Field not found: " ++ name }, some false) ∧
    setCheckboxValue st name checked
        = ({ st with lastError := "Field not found: " ++ name }, some false) ∧
    flattenForm st = ({ st with lastError := "No document loaded" }, false) ∧
    saveToMemory writer st = ({ st with lastError := "No document loaded" }, []) ∧
    getPageCount st = 0 ∧
    hasAcroForm st = false ∧
    getFormFields st = (st, []) ∧
    getFieldByName st name = (st, none) ∧
    renderPageToPng render st pageIndex dpi = [] := by
  have hcf : cacheFormFields st = st := by
    simp [cacheFormFields, hdoc]
  refine ⟨?_, ?_, ?_, ?_, ?_, ?_, ?_, ?_, ?_⟩
  · simp [setFieldValue, findFormField, hcf, hmap, mapLookup]
  · simp [setCheckboxValue, setButtonFieldValue, findFormField, hcf, hmap,
      mapLookup]
  · simp [flattenForm, hdoc]
  · simp [saveToMemory, hdoc]
  · simp [getPageCount, hdoc]
  · simp [hasAcroForm, hdoc]
  · simp [getFormFields, hcf, hcache]
  · simp [getFieldByName, hcf, hcache]
  · simp [renderPageToPng, hdoc]

/-- Claim C4 witness: the amended statement evaluated on the fresh
session. -/
theorem empty_session_well_defined_witness :
    setFieldValue initState "f" "v"
        = ({ initState with lastError := "Field not found: " ++ "f" }, some false) ∧
    flattenForm initState = ({ initState with lastError := "No document loaded" }, false) ∧
    getPageCount initState = 0 ∧
    getFieldByName initState "f" = (initState, none) := by
  have h := empty_session_well_defined initState "f" "v" true (fun _ _ => none)
    constRender 0 150 rfl rfl rfl
  exact ⟨h.1, h.2.2.1, h.2.2.2.2.1, h.2.2.2.2.2.2.2.1⟩

/-- Claim C5 (amended): for a checkbox or radio field whose first
widget exposes an on-state label `L` that is non-empty and distinct
from `"Off"`, `setFieldValue(f, v)` succeeds, marks the session dirty
and invalid, and sets the field's appearance state to `"Off"` when `v`
is `""`, `"0"` or `"false"` and to `L` otherwise — so the first
widget's on/off state (the flattener's `isChecked`) becomes false,
respectively true.  (Push-button fields, also button-family, are a
silent no-op success instead — see the counterexample.) -/
theorem setFieldValue_button_boolean_mapping (st : SessionState)
    (f v : String) (g idx : Nat) (n : PdfNode) (w : Widget) (L : String)
    (hc : st.fieldsCached = true)
    (hl : mapLookup st.fieldMap f = some (g, idx))
    (hd : derefField st (g, idx) = some n)
    (hk : n.kind = FormFieldType.formButton)
    (hb : n.btnType ≠ FormButtonType.push)
    (hw : n.widgets.head? = some w)
    (hon : w.onStr = some L)
    (hne : L ≠ "") (hoff : L ≠ "Off") :
    (setFieldValue st f v).2 = some true ∧
    (setFieldValue st f v).1.modified = true ∧
    (setFieldValue st f v).1.fieldsCached = false ∧
    derefField (setFieldValue st f v).1 (g, idx)
      = some { n with state := if v = "" ∨ v = "0" ∨ v = "false" then "Off" else L } ∧
    getState0 { n with state := if v = "" ∨ v = "0" ∨ v = "false" then "Off" else L }
      = (if v = "" ∨ v = "0" ∨ v = "false" then false else true) := by
  have hcf : cacheFormFields st = st := by simp [cacheFormFields, hc]
  have hg : g = st.docGen := by
    by_contra hgn
    rw [derefField, if_neg hgn] at hd
    exact Option.noConfusion hd
  obtain ⟨d, hdoc⟩ : ∃ d, st.doc = some d := by
    cases hdd : st.doc with
    | none => rw [derefField, if_pos hg, hdd] at hd; exact Option.noConfusion hd
    | some d => exact ⟨d, rfl⟩
  have hn : d.nodes.get? idx = some n := by
    rw [derefField, if_pos hg, hdoc] at hd
    exact hd
  have hn' : d.nodes[idx]? = some n := by
    rw [← List.get?_eq_getElem?]
    exact hn
  have hdisp : setFieldValue st f v
      = setButtonFieldValue st f (v ≠ "" && v ≠ "0" && v ≠ "false") := by
    simp [setFieldValue, findFormField, hcf, hl, hd, hk]
  by_cases hv : v = "" ∨ v = "0" ∨ v = "false"
  · have hcb : (v ≠ "" && v ≠ "0" && v ≠ "false") = false := by
      rcases hv with h | h | h <;> simp [h]
    have hns : (if v = "" ∨ v = "0" ∨ v = "false" then "Off" else L) = "Off" :=
      if_pos hv
    have hrun : setFieldValue st f v
        = ({ updateNode st idx (fun m => { m with state := "Off" })
              with modified := true, fieldsCached := false }, some true) := by
      rw [hdisp, hcb]
      cases hbt : n.btnType with
      | push => exact absurd hbt hb
      | check =>
          simp [setButtonFieldValue, findFormField, hcf, hl, hd, hk, hbt, hw,
            hon, hne]
      | radio =>
          simp [setButtonFieldValue, findFormField, hcf, hl, hd, hk, hbt, hw,
            hon, hne]
    have hup : updateNode st idx (fun m => { m with state := "Off" })
        = { st with doc := some { d with
              nodes := d.nodes.set idx { n with state := "Off" } } } := by
      simp [updateNode, hdoc, hn']
    refine ⟨by rw [hrun], by rw [hrun], by rw [hrun], ?_, ?_⟩
    · rw [hrun, hns]
      simp [derefField, hup, hg, List.getElem?_set_self', hn']
    · rw [hns]
      simp [getState0, hw, hon, Ne.symm hoff, hv]
  · have hv3 : ¬ v = "" ∧ ¬ v = "0" ∧ ¬ v = "false" := by
      push_neg at hv; exact hv
    have hcb : (v ≠ "" && v ≠ "0" && v ≠ "false") = true := by
      simp [hv3.1, hv3.2.1, hv3.2.2]
    have hns : (if v = "" ∨ v = "0" ∨ v = "false" then "Off" else L) = L :=
      if_neg hv
    have hrun : setFieldValue st f v
        = ({ updateNode st idx (fun m => { m with state := L })
              with modified := true, fieldsCached := false }, some true) := by
      rw [hdisp, hcb]
      cases hbt : n.btnType with
      | push => exact absurd hbt hb
      | check =>
          simp [setButtonFieldValue, findFormField, hcf, hl, hd, hk, hbt, hw,
            hon, hne]
      | radio =>
          simp [setButtonFieldValue, findFormField, hcf, hl, hd, hk, hbt, hw,
            hon, hne]
    have hup : updateNode st idx (fun m => { m with state := L })
        = { st with doc := some { d with
              nodes := d.nodes.set idx { n with state := L } } } := by
      simp [updateNode, hdoc, hn']
    refine ⟨by rw [hrun], by rw [hrun], by rw [hrun], ?_, ?_⟩
    · rw [hrun, hns]
      simp [derefField, hup, hg, List.getElem?_set_self', hn']
    · rw [hns]
      simp [getState0, hw, hon, hv]

/-- Claim C5 witness: the boolean mapping evaluated on the concrete
checkbox session, at a truthy and at an empty value. -/
theorem setFieldValue_button_boolean_mapping_witness :
    (setFieldValue stCheck "cb" "x").2 = some true ∧
    (setFieldValue stCheck "cb" "").2 = some true ∧
    derefField (setFieldValue stCheck "cb" "x").1 (1, 0)
      = some { checkNode with
          state := if "x" = "" ∨ "x" = "0" ∨ "x" = "false" then "Off" else "On1" } := by
  have h1 := setFieldValue_button_boolean_mapping stCheck "cb" "x" 1 0 checkNode
    checkWidget "On1" (by decide) (by decide) (by decide) (by decide) (by decide)
    (by decide) (by decide) (by decide) (by decide)
  have h2 := setFieldValue_button_boolean_mapping stCheck "cb" "" 1 0 checkNode
    checkWidget "On1" (by decide) (by decide) (by decide) (by decide) (by decide)
    (by decide) (by decide) (by decide) (by decide)
  exact ⟨h1.1, h2.1, h1.2.2.2.1⟩

/-- Loop-accumulator generalization of the batch-set equivalence: the
C++ loop with accumulator `acc` equals the sequential per-pair
application, with the aggregate flag `acc && (every result true)`,
provided no step hits undefined behavior. -/
theorem setFieldValuesGo_eq_seq (pairs : List (String × String)) :
    ∀ (st : SessionState) (acc : Bool),
      (∀ r ∈ (applyPairsSeq st pairs).2, r ≠ none) →
      setFieldValuesGo st acc pairs
        = ((applyPairsSeq st pairs).1,
            some (acc && (applyPairsSeq st pairs).2.all
              (fun r => decide (r = some true)))) := by
  induction pairs with
  | nil => intro st acc _; simp [setFieldValuesGo, applyPairsSeq]
  | cons p rest ih =>
      intro st acc hdef
      obtain ⟨name, value⟩ := p
      cases hr : setFieldValue st name value with
      | mk st' r =>
          cases r with
          | none =>
              exfalso
              refine hdef none ?_ rfl
              simp [applyPairsSeq, hr]
          | some ok =>
              have hdef' : ∀ x ∈ (applyPairsSeq st' rest).2, x ≠ none := by
                intro x hx
                refine hdef x ?_
                simp [applyPairsSeq, hr]
                exact Or.inr hx
              have hstep : setFieldValuesGo st acc ((name, value) :: rest)
                  = setFieldValuesGo st' (acc && ok) rest := by
                simp [setFieldValuesGo, hr]
              rw [hstep, ih st' (acc && ok) hdef']
              simp [applyPairsSeq, hr, Bool.and_assoc]

/-- Claim C6: in any defined execution, `setFieldValues` applies
`setFieldValue` to every pair in the given order without stopping at
the first failure (its final state is exactly that of the sequential
per-pair application, so pairs succeeding before or after a failing
pair remain applied), and it returns true iff every pair succeeded. -/
theorem setFieldValues_applies_all_pairs (st : SessionState)
    (pairs : List (String × String))
    (hdef : ∀ r ∈ (applyPairsSeq st pairs).2, r ≠ none) :
    setFieldValues st pairs
      = ((applyPairsSeq st pairs).1,
          some ((applyPairsSeq st pairs).2.all
            (fun r => decide (r = some true)))) := by
  have h := setFieldValuesGo_eq_seq pairs st true hdef
  simpa [setFieldValues] using h

/-- Claim C6 witness: the batch `[(a, X), (missing, Y)]` against the
loaded document returns an aggregate failure while the successful
first pair remains applied (`field a` reads back `X`). -/
theorem setFieldValues_applies_all_pairs_witness :
    (∀ r ∈ (applyPairsSeq stA2 [("a", "X"), ("missing", "Y")]).2, r ≠ none) ∧
    (setFieldValues stA2 [("a", "X"), ("missing", "Y")]).2 = some false ∧
    ((getFieldByName (setFieldValues stA2 [("a", "X"), ("missing", "Y")]).1 "a").2.map
        PdfFormField.value) = some "X" := by
  refine ⟨by decide, ?_, by decide⟩
  have h := setFieldValues_applies_all_pairs stA2 [("a", "X"), ("missing", "Y")]
    (by decide)
  rw [h]
  decide

/-- Soundness of the linear option scan: a returned index holds the
value and is the first such index. -/
theorem findChoiceIdx_some (choices : List String) (v : String) :
    ∀ i, findChoiceIdx choices v = some i →
      choices.get? i = some v ∧ ∀ j, j < i → choices.get? j ≠ some v := by
  induction choices with
  | nil => intro i h; exact Option.noConfusion h
  | cons c rest ih =>
      intro i h
      by_cases hc : c = v
      · rw [findChoiceIdx, if_pos hc] at h
        obtain rfl : (0 : Nat) = i := Option.some.inj h
        exact ⟨by simp [hc], fun j hj => absurd hj (Nat.not_lt_zero j)⟩
      · rw [findChoiceIdx, if_neg hc] at h
        cases hr : findChoiceIdx rest v with
        | none => rw [hr] at h; exact Option.noConfusion h
        | some k =>
            rw [hr] at h
            obtain rfl : k + 1 = i := Option.some.inj h
            obtain ⟨h1, h2⟩ := ih k hr
            refine ⟨by simpa using h1, ?_⟩
            intro j hj
            cases j with
            | zero => simp [hc]
            | succ j' =>
                simpa using h2 j' (by omega)

/-- Completeness of the linear option scan: a `none` result means the
value occurs nowhere in the option list. -/
theorem findChoiceIdx_none (choices : List String) (v : String) :
    findChoiceIdx choices v = none → v ∉ choices := by
  induction choices with
  | nil => intro _ h; cases h
  | cons c rest ih =>
      intro h hmem
      by_cases hc : c = v
      · rw [findChoiceIdx, if_pos hc] at h; exact Option.noConfusion h
      · rw [findChoiceIdx, if_neg hc] at h
        cases hr : findChoiceIdx rest v with
        | some k => rw [hr] at h; exact Option.noConfusion h
        | none =>
            rcases List.mem_cons.mp hmem with h' | hmem'
            · exact hc h'.symm
            · exact ih hr hmem'

/-- Claim C7: on a choice field, `setFieldValue` linearly scans the
option list for an exact match of the given value; when one exists it
succeeds and selects the first matching index (marking the session
dirty and invalid), and when none exists it fails, records
`"Value not in choice options: <value>"`, and leaves the document —
in particular the selection — unchanged. -/
theorem setFieldValue_choice_scan (st : SessionState) (f v : String)
    (g idx : Nat) (n : PdfNode)
    (hc : st.fieldsCached = true)
    (hl : mapLookup st.fieldMap f = some (g, idx))
    (hd : derefField st (g, idx) = some n)
    (hk : n.kind = FormFieldType.formChoice) :
    (∀ i, findChoiceIdx n.choices v = some i →
        n.choices.get? i = some v ∧
        (∀ j, j < i → n.choices.get? j ≠ some v) ∧
        (setFieldValue st f v).2 = some true ∧
        (setFieldValue st f v).1.modified = true ∧
        (setFieldValue st f v).1.fieldsCached = false ∧
        derefField (setFieldValue st f v).1 (g, idx)
          = some { n with selected := [i] }) ∧
    (findChoiceIdx n.choices v = none →
        v ∉ n.choices ∧
        setFieldValue st f v
          = ({ st with lastError := "Value not in choice options: " ++ v },
              some false)) := by
  have hcf : cacheFormFields st = st := by simp [cacheFormFields, hc]
  have hg : g = st.docGen := by
    by_contra hgn
    rw [derefField, if_neg hgn] at hd
    exact Option.noConfusion hd
  obtain ⟨d, hdoc⟩ : ∃ d, st.doc = some d := by
    cases hdd : st.doc with
    | none => rw [derefField, if_pos hg, hdd] at hd; exact Option.noConfusion hd
    | some d => exact ⟨d, rfl⟩
  have hn : d.nodes.get? idx = some n := by
    rw [derefField, if_pos hg, hdoc] at hd
    exact hd
  have hn' : d.nodes[idx]? = some n := by
    rw [← List.get?_eq_getElem?]
    exact hn
  have hdisp : setFieldValue st f v = setChoiceFieldValue st f v := by
    simp [setFieldValue, findFormField, hcf, hl, hd, hk]
  constructor
  · intro i hi
    obtain ⟨h1, h2⟩ := findChoiceIdx_some n.choices v i hi
    have hrun : setFieldValue st f v
        = ({ updateNode st idx (fun m => { m with selected := [i] })
              with modified := true, fieldsCached := false }, some true) := by
      rw [hdisp]
      simp [setChoiceFieldValue, findFormField, hcf, hl, hd, hk, hi]
    have hup : updateNode st idx (fun m => { m with selected := [i] })
        = { st with doc := some { d with
              nodes := d.nodes.set idx { n with selected := [i] } } } := by
      simp [updateNode, hdoc, hn']
    refine ⟨h1, h2, by rw [hrun], by rw [hrun], by rw [hrun], ?_⟩
    rw [hrun]
    simp [derefField, hup, hg, List.getElem?_set_self', hn']
  · intro hnone
    refine ⟨findChoiceIdx_none n.choices v hnone, ?_⟩
    rw [hdisp]
    simp [setChoiceFieldValue, findFormField, hcf, hl, hd, hk, hnone]

/-- Claim C7 witness: the scan evaluated on the concrete choice
session, at a value that is an option and one that is not. -/
theorem setFieldValue_choice_scan_witness :
    (setFieldValue stChoice "ch" "Beta").2 = some true ∧
    derefField (setFieldValue stChoice "ch" "Beta").1 (1, 0)
      = some { choiceNode with selected := [1] } ∧
    setFieldValue stChoice "ch" "Gamma"
      = ({ stChoice with lastError := "Value not in choice options: " ++ "Gamma" },
          some false) := by
  have h := setFieldValue_choice_scan stChoice "ch" "Beta" 1 0 choiceNode
    (by decide) (by decide) (by decide) (by decide)
  have hB := h.1 1 (by decide)
  have h2 := setFieldValue_choice_scan stChoice "ch" "Gamma" 1 0 choiceNode
    (by decide) (by decide) (by decide) (by decide)
  have hG := h2.2 (by decide)
  exact ⟨hB.2.2.1, hB.2.2.2.2.2, hG.2⟩

/-- Claim C8: `renderPage` returns the empty (failure) result whenever
no document is loaded or the page index is out of range — negative or
at least the page count — for every renderer oracle and every dpi. -/
theorem renderPage_out_of_range_fails
    (render : PdfDoc → Nat → Int → List Nat) (st : SessionState)
    (pageIndex dpi : Int)
    (h : st.doc = none ∨ pageIndex < 0 ∨ (getPageCount st : Int) ≤ pageIndex) :
    renderPageToPng render st pageIndex dpi = [] := by
  cases hd : st.doc with
  | none => simp [renderPageToPng, hd]
  | some d =>
      have hcond : pageIndex < 0 ∨ (d.numPages : Int) ≤ pageIndex := by
        rcases h with h | h | h
        · rw [hd] at h; exact absurd h (by simp)
        · exact Or.inl h
        · refine Or.inr ?_
          have hp : getPageCount st = d.numPages := by simp [getPageCount, hd]
          rw [hp] at h
          exact h
      simp [renderPageToPng, hd, hcond]

/-- Claim C8 witness: rendering page index 1 of the loaded one-page
document, and rendering against the empty session, both fail. -/
theorem renderPage_out_of_range_fails_witness :
    (stA.doc = none ∨ (1 : Int) < 0 ∨ ((getPageCount stA : Nat) : Int) ≤ 1) ∧
    renderPageToPng constRender stA 1 150 = [] ∧
    renderPageToPng constRender initState 0 150 = [] := by
  refine ⟨Or.inr (Or.inr (by decide)), ?_, ?_⟩
  · exact renderPage_out_of_range_fails constRender stA 1 150
      (Or.inr (Or.inr (by decide)))
  · exact renderPage_out_of_range_fails constRender initState 0 150 (Or.inl rfl)

/-- Claim C9 (amended): an emitted terminal record's `name` equals its
`fullName` when the node's partial name is absent (null) or identical
to the fully qualified name; a present-but-empty partial name instead
yields an empty `name` distinct from `fullName` (see the
counterexample). -/
theorem name_aliased_when_partial_absent (n : PdfNode)
    (hterm : n.widgets.length > 0)
    (h : n.partialName = none ∨ n.partialName = n.fullyQualifiedName) :
    (mkFieldRecord n).name = (mkFieldRecord n).fullName := by
  rcases h with h | h
  all_goals cases hf : n.fullyQualifiedName
  all_goals try rw [hf] at h
  all_goals cases hk : n.kind <;> cases hb : n.btnType <;> cases hw : n.widgets.head? <;>
    simp [mkFieldRecord, hk, hb, hw, h, hf]

/-- Claim C9 witness: the aliasing evaluated at a terminal node whose
partial name is null. -/
theorem name_aliased_when_partial_absent_witness :
    noPartialNode.widgets.length > 0 ∧
    (mkFieldRecord noPartialNode).name = (mkFieldRecord noPartialNode).fullName :=
  ⟨by decide, name_aliased_when_partial_absent noPartialNode (by decide) (Or.inl rfl)⟩

end PdfFiller
